import Mathlib

/-!
Shallow embedding of `src/skills/planner/scripts/planner.py`, the
two-phase (planning / review) guidance dispatcher, and proofs of the
specified properties of its step-to-guidance selection logic, report
rendering and input validation.

Python `dict {"actions": [...], "next": ...}` becomes the structure
`GuidanceResult`; Python `int` becomes `Int`; f-string interpolation
`f"... {x} ..."` becomes `"... " ++ toString x ++ " ..."`; the process
outcome of `main` (exit code, stdout, stderr) becomes the structure
`ExecResult`.
-/

/-- The result produced by either selector: an ordered action checklist
(some entries empty, rendered as blank lines) and the mandatory `next`
directive. -/
structure GuidanceResult where
  actions : List String
  next : String
deriving DecidableEq

/-- The `--phase` flag's enumerated values: `planning` (default) or `review`. -/
inductive Phase where
  | planning
  | review
deriving DecidableEq

/-- Planning terminal case (`is_complete`): the final-verification checklist,
source lines 26-113. -/
def planningCompleteGuidance : GuidanceResult :=
  { actions := [
      "FINAL VERIFICATION — complete each section before writing.",
      "",
      "<planning_context_verification>",
      "TW and QR consume this section VERBATIM. Quality here =",
      "quality of annotations and risk detection downstream.",
      "",
      "Decision Log:",
      "  - What major architectural choice did you make?",
      "  - What is the multi-step reasoning chain for that choice?",
      "  - What micro-decisions (timeouts, data structures) need",
      "    rationale for TW to document?",
      "",
      "Rejected Alternatives:",
      "  - What approach did you NOT take?",
      "  - What concrete reason ruled it out?",
      "",
      "Known Risks:",
      "  - What failure modes exist?",
      "  - What mitigation or acceptance rationale exists for each?",
      "</planning_context_verification>",
      "",
      "<invisible_knowledge_verification>",
      "This section sources README.md content. Skip if trivial.",
      "",
      "  - What is the component relationship diagram?",
      "  - What is the data flow through the system?",
      "  - Why is the module organization structured this way?",
      "  - What invariants must be maintained?",
      "  - What tradeoffs were made (and their costs/benefits)?",
      "</invisible_knowledge_verification>",
      "",
      "<milestone_verification>",
      "For EACH milestone, verify:",
      "  - File paths: exact (src/auth/handler.py) not vague?",
      "  - Requirements: specific behaviors, not 'handle X'?",
      "  - Acceptance criteria: testable pass/fail assertions?",
      "  - Code changes: diff format for non-trivial logic?",
      "  - Uncertainty flags: added where applicable?",
      "  - Contracts: defined for PUBLIC APIs and complex logic?",
      "</milestone_verification>",
      "",
      "<documentation_milestone_verification>",
      "  - Does a Documentation milestone exist?",
      "  - Does CLAUDE.md use TABULAR INDEX format (not prose)?",
      "  - Is README.md included only if Invisible Knowledge has",
      "    content?",
      "</documentation_milestone_verification>",
      "",
      "<comment_hygiene_verification>",
      "Comments in code snippets will be transcribed VERBATIM to code.",
      "Write in TIMELESS PRESENT -- describe what the code IS, not what",
      "you are changing.",
      "",
      "CONTAMINATED: '// Added mutex to fix race condition'",
      "CLEAN: '// Mutex serializes cache access from concurrent requests'",
      "",
      "CONTAMINATED: '// Replaces per-tag logging with summary'",
      "CLEAN: '// Single summary line; per-tag avoids 1500+ lines'",
      "",
      "CONTAMINATED: '// After the retry loop' (location directive)",
      "CLEAN: (delete -- diff context encodes location)",
      "",
      "TW will review, but starting clean reduces rework.",
      "</comment_hygiene_verification>"
    ],
    next :=
      "PLANNING PHASE COMPLETE.\n\n"
      ++ "1. Write plan to file using the format from SKILL.md\n\n"
      ++ "============================================\n"
      ++ ">>> ACTION REQUIRED: INVOKE REVIEW PHASE <<<\n"
      ++ "============================================\n\n"
      ++ "SKIPPING REVIEW MEANS:\n"
      ++ "  - Developer has NO prepared comments to transcribe\n"
      ++ "  - Code ships without WHY documentation\n"
      ++ "  - QR findings surface during execution, not before\n\n"
      ++ "2. Run this command to start review:\n\n"
      ++ "   python3 planner.py --phase review --step-number 1 --total-steps 4 \\\n"
      ++ "     --thoughts \"Plan written to [path]\"\n\n"
      ++ "Review phase:\n"
      ++ "  Step 1: @agent-technical-writer annotates code snippets\n"
      ++ "  Step 2: @agent-contract-specifier validates/defines contracts\n"
      ++ "  Step 3: @agent-test-specifier defines test specifications\n"
      ++ "  Step 4: @agent-quality-reviewer validates the plan\n"
      ++ "  Then: Ready for /plan-execution" }

/-- Planning step 1 (non-terminal): context/scope/approaches checklist,
source lines 115-147; `next` interpolates `next_step`. -/
def planningStep1Guidance (next_step : Int) : GuidanceResult :=
  { actions := [
      "You are an expert architect. Proceed with confidence.",
      "",
      "PRECONDITION: Confirm plan file path before proceeding.",
      "",
      "<step_1_checklist>",
      "Complete ALL items before invoking step 2:",
      "",
      "CONTEXT (understand before proposing):",
      "  - [ ] What code/systems does this touch?",
      "  - [ ] What patterns does the codebase follow?",
      "  - [ ] What prior decisions constrain this work?",
      "",
      "SCOPE (define boundaries):",
      "  - [ ] What exactly must be accomplished?",
      "  - [ ] What is OUT of scope?",
      "",
      "APPROACHES (consider alternatives):",
      "  - [ ] 2-3 options with Advantage/Disadvantage for each",
      "",
      "CONSTRAINTS (list by category):",
      "  - [ ] Technical: language, APIs, existing patterns",
      "  - [ ] Organizational: timeline, expertise, approvals",
      "  - [ ] Dependencies: external services, data formats",
      "",
      "SUCCESS (observable outcomes):",
      "  - [ ] Defined testable acceptance criteria",
      "</step_1_checklist>"
    ],
    next := "Invoke step " ++ toString next_step
      ++ " with your context analysis and approach options." }

/-- Planning step 2 (non-terminal): evaluate/decide/milestones,
source lines 149-190. -/
def planningStep2Guidance (next_step : Int) : GuidanceResult :=
  { actions := [
      "<step_2_evaluate_first>",
      "BEFORE deciding, evaluate each approach from step 1:",
      "  | Approach | P(success) | Failure mode | Backtrack cost |",
      "",
      "STOP CHECK: If ALL approaches show LOW probability or HIGH",
      "backtrack cost, STOP. Request clarification from user.",
      "</step_2_evaluate_first>",
      "",
      "<step_2_decide>",
      "Select approach. Record in Decision Log with MULTI-STEP chain:",
      "",
      "  INSUFFICIENT: 'Polling | Webhooks are unreliable'",
      "  SUFFICIENT:   'Polling | 30% webhook failure in testing",
      "                 -> would need fallback anyway -> simpler primary'",
      "",
      "Include BOTH architectural AND micro-decisions (timeouts, etc).",
      "</step_2_decide>",
      "",
      "<step_2_rejected>",
      "Document rejected alternatives with CONCRETE reasons.",
      "TW uses this for 'why not X' code comments.",
      "</step_2_rejected>",
      "",
      "<step_2_architecture>",
      "Capture in ASCII diagrams:",
      "  - Component relationships",
      "  - Data flow",
      "These go in Invisible Knowledge for README.md.",
      "</step_2_architecture>",
      "",
      "<step_2_milestones>",
      "Break into deployable increments:",
      "  - Each milestone: independently testable",
      "  - Scope: 1-3 files per milestone",
      "  - Map dependencies (circular = design problem)",
      "</step_2_milestones>"
    ],
    next := "Invoke step " ++ toString next_step
      ++ " with your chosen approach (include state evaluation summary), architecture, and milestone structure." }

/-- Planning step 3 (non-terminal): risks, flags, refinement, validation,
source lines 192-252; its `next` is a constant branch description. -/
def planningStep3Guidance : GuidanceResult :=
  { actions := [
      "<step_3_risks>",
      "Document risks NOW. QR excludes documented risks from findings.",
      "Undocumented risks WILL be flagged.",
      "",
      "For each risk:",
      "  | Risk | Mitigation or 'Accepted: [reason]' |",
      "</step_3_risks>",
      "",
      "<step_3_uncertainty_flags>",
      "For EACH milestone, check these conditions -> add flag:",
      "",
      "  | Condition                          | Flag                    |",
      "  |------------------------------------|-------------------------|",
      "  | Multiple valid implementations     | needs TW rationale      |",
      "  | Depends on external system         | needs error review      |",
      "  | First use of pattern in codebase   | needs conformance check |",
      "",
      "Add to milestone: **Flags**: [list]",
      "</step_3_uncertainty_flags>",
      "",
      "<step_3_refine_milestones>",
      "Verify EACH milestone has:",
      "",
      "FILES — exact paths:",
      "  CORRECT: src/auth/handler.py",
      "  WRONG:   'auth files'",
      "",
      "REQUIREMENTS — specific behaviors:",
      "  CORRECT: 'retry 3x with exponential backoff, max 30s'",
      "  WRONG:   'handle errors'",
      "",
      "ACCEPTANCE CRITERIA — testable pass/fail:",
      "  CORRECT: 'Returns 429 after 3 failed attempts within 60s'",
      "  WRONG:   'Handles errors correctly'",
      "",
      "CODE CHANGES — diff format for non-trivial logic.",
      "</step_3_refine_milestones>",
      "",
      "<step_3_validate>",
      "Cross-check: Does the plan address ALL original requirements?",
      "",
      "CONTRACT CONSIDERATION:",
      "  Do any components need formal contracts?",
      "  - PUBLIC APIs or external interfaces?",
      "  - Complex validation logic with multiple approaches?",
      "  - State machines or stateful components?",
      "  - Error-prone operations (I/O, concurrency, parsing)?",
      "  - Security-sensitive code (auth, crypto, validation)?",
      "",
      "If YES to any: consider adding contract specification step before final verification.",
      "</step_3_validate>"
    ],
    next :=
      "Options:\n"
      ++ "  - If contracts needed: Invoke step 4 (adjust total-steps) with contract needs\n"
      ++ "  - If no contracts: Invoke final verification step (current total-steps)" }

/-- Planning step 4 (non-terminal): contract-specification checklist,
source lines 254-287. -/
def planningStep4Guidance (next_step : Int) : GuidanceResult :=
  { actions := [
      "<contract_specification_step>",
      "Define formal contracts for complex components identified in step 3.",
      "",
      "COMPONENTS NEEDING CONTRACTS:",
      "  Review each milestone for:",
      "  - PUBLIC APIs (user-facing functions)",
      "  - Complex validation (multiple valid approaches)",
      "  - State machines (state transitions)",
      "  - Error-prone logic (I/O, concurrency, parsing)",
      "  - Security-sensitive (authentication, authorization, cryptography)",
      "",
      "FOR EACH COMPONENT:",
      "  Define inline in milestone specification:",
      "  ",
      "  **Contracts**:",
      "  ",
      "  ### Contract: function_name",
      "  **Preconditions**: requires caller to provide [specific conditions]",
      "  **Postconditions**: ensures function returns/guarantees [specific outcomes]",
      "  **Boundary Conditions**: behavior for empty, null, zero, max [concrete values]",
      "  **Error Behaviors**: raises/returns [specific error types and conditions]",
      "",
      "TESTABILITY CHECK:",
      "  For each condition: What test would verify this?",
      "  If you can't describe a concrete test → rewrite the condition.",
      "",
      "See @agent-contract-specifier documentation for patterns and examples.",
      "</contract_specification_step>"
    ],
    next := "Invoke step " ++ toString next_step
      ++ " with contracts defined, ready for final verification." }

/-- Planning steps 5+ (generic catch-all): backtrack check and gap analysis,
source lines 289-325; `next` interpolates `next_step` and `remaining`. -/
def planningSteps5PlusGuidance (next_step remaining : Int) : GuidanceResult :=
  { actions := [
      "<backtrack_check>",
      "BEFORE proceeding, verify no dead ends:",
      "  - Has new information invalidated a prior decision?",
      "  - Is a milestone now impossible given discovered constraints?",
      "  - Are you adding complexity to work around a fundamental issue?",
      "",
      "If YES to any: invoke earlier step with --thoughts explaining change.",
      "</backtrack_check>",
      "",
      "<gap_analysis>",
      "Review current plan state. What's missing?",
      "  - Any milestone without exact file paths?",
      "  - Any acceptance criteria not testable pass/fail?",
      "  - Any non-trivial logic without diff-format code?",
      "  - Any milestone missing uncertainty flags where applicable?",
      "</gap_analysis>",
      "",
      "<planning_context_check>",
      "  - Decision Log: Every major choice has multi-step reasoning?",
      "  - Rejected Alternatives: At least one per major decision?",
      "  - Known Risks: All failure modes identified with mitigations?",
      "</planning_context_check>",
      "",
      "<developer_walkthrough>",
      "Walk through the plan as if you were Developer:",
      "  - Can you implement each milestone from the spec alone?",
      "  - Are requirements specific enough to avoid interpretation?",
      "",
      "If gaps remain, address them. If complete, reduce total_steps.",
      "</developer_walkthrough>"
    ],
    next := "Invoke step " ++ toString next_step ++ ". " ++ toString remaining
      ++ " step(s) remaining until completion. (Or invoke earlier step if backtracking.)" }

/-- `get_planning_step_guidance` of the source (lines 20-325): terminal check
first, then steps 1-4, then the generic steps-5+ case. -/
def get_planning_step_guidance (step_number total_steps : Int) : GuidanceResult :=
  let is_complete := step_number ≥ total_steps
  let next_step := step_number + 1
  if is_complete then planningCompleteGuidance
  else if step_number = 1 then planningStep1Guidance next_step
  else if step_number = 2 then planningStep2Guidance next_step
  else if step_number = 3 then planningStep3Guidance
  else if step_number = 4 then planningStep4Guidance next_step
  else planningSteps5PlusGuidance next_step (total_steps - step_number)

/-- Review step 1: delegation to the technical-writer role,
source lines 333-361. -/
def reviewStep1Guidance (next_step : Int) : GuidanceResult :=
  { actions := [
      "<review_step_1_delegate_tw>",
      "DELEGATE to @agent-technical-writer:",
      "",
      "  <delegation>",
      "    <agent>@agent-technical-writer</agent>",
      "    <mode>plan-annotation</mode>",
      "    <plan_source>[path to plan file]</plan_source>",
      "    <task>",
      "      1. Read ## Planning Context section FIRST",
      "      2. Prioritize annotation by uncertainty (HIGH/MEDIUM/LOW)",
      "      3. Add WHY comments to code snippets from Decision Log",
      "      4. Enrich plan prose with rationale",
      "      5. Add documentation milestone if missing",
      "      6. FLAG any non-obvious logic lacking rationale",
      "    </task>",
      "  </delegation>",
      "",
      "Wait for @agent-technical-writer to complete.",
      "</review_step_1_delegate_tw>"
    ],
    next := "After TW completes, invoke step " ++ toString next_step ++ ":\n"
      ++ "   python3 planner.py --phase review --step-number 2 --total-steps 3 "
      ++ "--thoughts \"TW annotation complete, [summary of changes]\"" }

/-- Review step 2: delegation to the contract-specifier role,
source lines 363-402. -/
def reviewStep2Guidance (next_step : Int) : GuidanceResult :=
  { actions := [
      "<review_step_2_delegate_contract_specifier>",
      "DELEGATE to @agent-contract-specifier:",
      "",
      "  <delegation>",
      "    <agent>@agent-contract-specifier</agent>",
      "    <mode>plan-analysis</mode>",
      "    <plan_source>[path to plan file]</plan_source>",
      "    <task>",
      "      Read plan and determine contract coverage scenario:",
      "",
      "      SCENARIO A (contracts exist in plan - defined in planning step 4):",
      "        1. Validate existing contracts are testable (RULE 0)",
      "        2. Check boundary condition coverage (empty, null, max, zero)",
      "        3. Identify gaps (missing preconditions, vague postconditions)",
      "        4. Enhance contracts where needed",
      "        5. Return validation report",
      "",
      "      SCENARIO B (no contracts or incomplete - planning step 4 was skipped):",
      "        1. Analyze plan and identify components needing contracts",
      "        2. Categorize by priority (HIGH/MEDIUM/LOW)",
      "        3. Define contracts for HIGH priority components",
      "        4. Add contracts to plan file (inline in milestones)",
      "        5. Flag MEDIUM priority for consideration",
      "",
      "      Contract Specifier will determine which scenario applies.",
      "    </task>",
      "  </delegation>",
      "",
      "Wait for @agent-contract-specifier to complete.",
      "</review_step_2_delegate_contract_specifier>"
    ],
    next := "After contract-specifier completes, invoke step " ++ toString next_step ++ ":\n"
      ++ "   python3 planner.py --phase review --step-number 3 --total-steps 4 "
      ++ "--thoughts \"Contracts validated/defined, [summary]\"" }

/-- Review step 3: delegation to the test-specifier role,
source lines 404-433. -/
def reviewStep3Guidance (next_step : Int) : GuidanceResult :=
  { actions := [
      "<review_step_3_delegate_test_specifier>",
      "DELEGATE to @agent-test-specifier:",
      "",
      "  <delegation>",
      "    <agent>@agent-test-specifier</agent>",
      "    <mode>plan-analysis</mode>",
      "    <plan_source>[path to plan file]</plan_source>",
      "    <task>",
      "      1. Analyze the plan and contracts to determine test strategies",
      "      2. Define unit tests for function-level behavior verification",
      "      3. Define integration tests for component interactions",
      "      4. Define property-based tests for invariants (when applicable)",
      "      5. Identify edge cases and boundary conditions from contracts",
      "      6. Specify coverage strategy (which test types verify which behaviors)",
      "      7. Add test specifications to plan file in each milestone's Test Specification section",
      "    </task>",
      "  </delegation>",
      "",
      "Wait for @agent-test-specifier to complete.",
      "</review_step_3_delegate_test_specifier>"
    ],
    next := "After test-specifier completes, invoke step " ++ toString next_step ++ ":\n"
      ++ "   python3 planner.py --phase review --step-number 4 --total-steps 4 "
      ++ "--thoughts \"Test specifications defined, [summary]\"" }

/-- Review step 4: delegation to the quality-reviewer role,
source lines 435-473; its `next` is a constant verdict-handling text. -/
def reviewStep4Guidance : GuidanceResult :=
  { actions := [
      "<review_step_4_delegate_qr>",
      "DELEGATE to @agent-quality-reviewer:",
      "",
      "  <delegation>",
      "    <agent>@agent-quality-reviewer</agent>",
      "    <mode>plan-review</mode>",
      "    <plan_source>[path to plan file]</plan_source>",
      "    <task>",
      "      1. Read ## Planning Context (constraints, known risks)",
      "      2. Write out CONTEXT FILTER before reviewing milestones",
      "      3. Apply RULE 0 (production reliability) with open questions",
      "      4. Apply RULE 1 (project conformance)",
      "      5. Check for contract circumvention (validate precondition → return default pattern)",
      "      6. Verify contracts are testable and complete",
      "      7. Verify test specifications cover all contract conditions",
      "      8. Check anticipated structural issues",
      "      9. Verify TW annotations pass actionability test",
      "      10. Accept risks documented in Known Risks as acknowledged",
      "      11. Pay extra attention to milestones with uncertainty flags",
      "    </task>",
      "    <expected_output>",
      "      Verdict: PASS | PASS_WITH_CONCERNS | NEEDS_CHANGES",
      "    </expected_output>",
      "  </delegation>",
      "",
      "Wait for @agent-quality-reviewer verdict.",
      "</review_step_4_delegate_qr>"
    ],
    next :=
      "After QR returns verdict:\n"
      ++ "  - PASS or PASS_WITH_CONCERNS: Invoke step 5 to complete review\n"
      ++ "  - NEEDS_CHANGES: Address issues in plan, then restart review from step 1:\n"
      ++ "    python3 planner.py --phase review --step-number 1 --total-steps 4 \\\n"
      ++ "      --thoughts \"Addressed QR feedback: [summary of changes]\"" }

/-- Review terminal case (`is_complete`, reached only past steps 1-4):
completion checklist and the approved-for-execution directive,
source lines 475-496. -/
def reviewCompleteGuidance : GuidanceResult :=
  { actions := [
      "<review_complete_verification>",
      "Confirm before proceeding to execution:",
      "  - TW has annotated code snippets with WHY comments?",
      "  - TW has enriched plan prose with rationale?",
      "  - TW flagged any gaps in Planning Context rationale?",
      "  - Contracts defined for PUBLIC APIs and complex components?",
      "  - Contracts are testable (verified by contract-specifier)?",
      "  - Test specifications defined for all non-trivial milestones?",
      "  - Test specifications cover all contract conditions?",
      "  - QR verdict is PASS or PASS_WITH_CONCERNS?",
      "  - Any concerns from QR are documented or addressed?",
      "</review_complete_verification>"
    ],
    next :=
      "PLAN APPROVED.\n\n"
      ++ "Ready for implementation via /plan-execution command.\n"
      ++ "Pass the plan file path as argument." }

/-- Review fallback (step beyond 4 that is not yet terminal): a defensive
generic placeholder, source lines 498-502. -/
def reviewFallbackGuidance (next_step : Int) : GuidanceResult :=
  { actions := ["Continue review process as needed."],
    next := "Invoke step " ++ toString next_step ++ " when ready." }

/-- `get_review_step_guidance` of the source (lines 328-502): numbered steps
1-4 are checked before the terminal condition, then the fallback. -/
def get_review_step_guidance (step_number total_steps : Int) : GuidanceResult :=
  let is_complete := step_number ≥ total_steps
  let next_step := step_number + 1
  if step_number = 1 then reviewStep1Guidance next_step
  else if step_number = 2 then reviewStep2Guidance next_step
  else if step_number = 3 then reviewStep3Guidance next_step
  else if step_number = 4 then reviewStep4Guidance
  else if is_complete then reviewCompleteGuidance
  else reviewFallbackGuidance next_step

/-- Phase dispatch of `main` (source lines 539-544): `planning` consults the
planning table, `review` the review table. -/
def phaseGuidance (phase : Phase) (step_number total_steps : Int) : GuidanceResult :=
  match phase with
  | .planning => get_planning_step_guidance step_number total_steps
  | .review => get_review_step_guidance step_number total_steps

/-- `phase_label` of `main`: the banner name of the selected phase. -/
def phaseLabel (phase : Phase) : String :=
  match phase with
  | .planning => "PLANNING"
  | .review => "REVIEW"

/-- The outcome of one process run: exit status, standard output and
standard error. -/
structure ExecResult where
  exitCode : Nat
  stdout : String
  stderr : String
deriving DecidableEq

/-- The 80-character separator line printed by `main` (Python `"=" * 80`). -/
def sepLine : String := String.join (List.replicate 80 "=")

/-- One printed action line (source lines 563-567): a non-empty action is
indented by two spaces, an empty action prints as a blank line. -/
def renderedActions (actions : List String) : String :=
  String.join (actions.map fun action =>
    (if action = "" then "" else "  " ++ action) ++ "\n")

/-- The action block of the report (source lines 558-568): printed only when
the actions list is non-empty, headed FINAL CHECKLIST or REQUIRED ACTIONS
by completion, followed by a blank line. -/
def actionsBlock (is_complete : Prop) [Decidable is_complete]
    (guidance : GuidanceResult) : String :=
  if guidance.actions = [] then ""
  else
    (if is_complete then "FINAL CHECKLIST:" else "REQUIRED ACTIONS:") ++ "\n"
      ++ renderedActions guidance.actions ++ "\n"

/-- Everything `main` prints before the STATUS marker (source lines 548-552):
the banner naming the phase and step/total. -/
def reportBanner (phase : Phase) (step_number total_steps : Int) : String :=
  sepLine ++ "\n"
    ++ "PLANNER - " ++ phaseLabel phase ++ " PHASE - Step "
    ++ toString step_number ++ " of " ++ toString total_steps ++ "\n"
    ++ sepLine ++ "\n"
    ++ "\n"

/-- Everything `main` prints between the STATUS marker and the echoed
thoughts (source lines 552-555). -/
def reportMid : String := "\n" ++ "\n" ++ "YOUR THOUGHTS:" ++ "\n"

/-- Everything `main` prints after the echoed thoughts (source lines
555-573): the action block, the `next` directive and the closing banner. -/
def reportTail (is_complete : Prop) [Decidable is_complete]
    (guidance : GuidanceResult) : String :=
  "\n" ++ "\n"
    ++ actionsBlock is_complete guidance
    ++ "NEXT:" ++ "\n"
    ++ guidance.next ++ "\n"
    ++ "\n"
    ++ sepLine ++ "\n"

/-- The full report `main` writes to standard output for valid inputs
(source lines 546-573), assembled in print order. -/
def report (phase : Phase) (step_number total_steps : Int)
    (thoughts : String) : String :=
  let guidance := phaseGuidance phase step_number total_steps
  let is_complete := step_number ≥ total_steps
  reportBanner phase step_number total_steps
    ++ (("STATUS: " ++ (if is_complete then "phase_complete" else "in_progress"))
    ++ (reportMid
    ++ (thoughts
    ++ reportTail is_complete guidance)))

/-- `main` of the source (lines 505-573) as a pure function of the parsed
arguments: inputs below 1 abort with the error message on standard error,
a status of 1 and no report; every other input prints the report and exits
with status 0. -/
def mainFn (phase : Phase) (step_number total_steps : Int)
    (thoughts : String) : ExecResult :=
  if step_number < 1 ∨ total_steps < 1 then
    { exitCode := 1,
      stdout := "",
      stderr := "Error: step-number and total-steps must be >= 1\n" }
  else
    { exitCode := 0,
      stdout := report phase step_number total_steps thoughts,
      stderr := "" }

/-- A string of non-zero length is not the empty string. -/
theorem ne_empty_of_length (s : String) (h : s.length ≠ 0) : s ≠ "" := by
  intro he
  rw [he] at h
  exact h rfl

/-- An append whose left part has non-zero length has non-zero length. -/
theorem length_append_ne (a b : String) (h : a.length ≠ 0) : (a ++ b).length ≠ 0 := by
  rw [String.length_append]
  omega

/-- An append whose right part has non-zero length has non-zero length. -/
theorem length_append_ne_right (a b : String) (h : b.length ≠ 0) :
    (a ++ b).length ≠ 0 := by
  rw [String.length_append]
  omega

/-- C1: in the planning phase, for every step_number s ≥ 1 and total_steps
t ≥ 1 with s ≥ t, the selector returns the terminal final-verification case
regardless of the specific value of s; in particular (per the t = 1, s = 1
instance of the statement) the result is never the step-1 content: the
terminal case takes priority over all numbered cases. -/
theorem planning_terminal_priority (s t : Int) (hs : 1 ≤ s) (ht : 1 ≤ t)
    (hts : t ≤ s) :
    get_planning_step_guidance s t = planningCompleteGuidance ∧
    get_planning_step_guidance s t ≠ planningStep1Guidance 2 := by
  have h : get_planning_step_guidance s t = planningCompleteGuidance := by
    simp only [get_planning_step_guidance, ge_iff_le, hts, if_true]
  refine ⟨h, ?_⟩
  rw [h]
  decide

/-- C1 witness: with total_steps = 1, step 1 yields the terminal content and
never the step-1 content. -/
theorem planning_terminal_priority_witness :
    get_planning_step_guidance 1 1 = planningCompleteGuidance ∧
    get_planning_step_guidance 1 1 ≠ planningStep1Guidance 2 :=
  planning_terminal_priority 1 1 (by decide) (by decide) (by decide)

/-- C2: in the review phase, for every step_number s in \x7b1,2,3,4\x7d and every
total_steps t ≥ 1 (including t = s and t < s), the selector returns the
step-specific delegation case, not the terminal completion case; in
particular step 1 never yields the completion content, unlike the planning
phase where the terminal case would take precedence. -/
theorem review_numbered_step_precedence (t : Int) (ht : 1 ≤ t) :
    get_review_step_guidance 1 t = reviewStep1Guidance 2 ∧
    get_review_step_guidance 2 t = reviewStep2Guidance 3 ∧
    get_review_step_guidance 3 t = reviewStep3Guidance 4 ∧
    get_review_step_guidance 4 t = reviewStep4Guidance ∧
    get_review_step_guidance 1 t ≠ reviewCompleteGuidance := by
  refine ⟨by norm_num [get_review_step_guidance], by norm_num [get_review_step_guidance],
    by norm_num [get_review_step_guidance], by norm_num [get_review_step_guidance], ?_⟩
  have h : get_review_step_guidance 1 t = reviewStep1Guidance 2 := by
    norm_num [get_review_step_guidance]
  rw [h]
  decide

/-- C2 witness: at total_steps = 1, review step 1 yields the Step-1
technical-writer delegation content, not the completion content. -/
theorem review_numbered_step_precedence_witness :
    get_review_step_guidance 1 1 = reviewStep1Guidance 2 ∧
    get_review_step_guidance 2 1 = reviewStep2Guidance 3 ∧
    get_review_step_guidance 3 1 = reviewStep3Guidance 4 ∧
    get_review_step_guidance 4 1 = reviewStep4Guidance ∧
    get_review_step_guidance 1 1 ≠ reviewCompleteGuidance :=
  review_numbered_step_precedence 1 (by decide)

/-- C3: both selector functions are total and deterministic: they are plain
functions on Int × Int (so every pair, including nonsensical combinations,
is mapped to exactly one result and no input raises), and every result is
one of the finitely many dispatch cases of the respective phase. -/
theorem selectors_total_cases (s t : Int) :
    (get_planning_step_guidance s t = planningCompleteGuidance ∨
     get_planning_step_guidance s t = planningStep1Guidance (s + 1) ∨
     get_planning_step_guidance s t = planningStep2Guidance (s + 1) ∨
     get_planning_step_guidance s t = planningStep3Guidance ∨
     get_planning_step_guidance s t = planningStep4Guidance (s + 1) ∨
     get_planning_step_guidance s t = planningSteps5PlusGuidance (s + 1) (t - s)) ∧
    (get_review_step_guidance s t = reviewStep1Guidance (s + 1) ∨
     get_review_step_guidance s t = reviewStep2Guidance (s + 1) ∨
     get_review_step_guidance s t = reviewStep3Guidance (s + 1) ∨
     get_review_step_guidance s t = reviewStep4Guidance ∨
     get_review_step_guidance s t = reviewCompleteGuidance ∨
     get_review_step_guidance s t = reviewFallbackGuidance (s + 1)) := by
  constructor
  · simp only [get_planning_step_guidance]
    split
    · exact Or.inl rfl
    split
    · exact Or.inr (Or.inl rfl)
    split
    · exact Or.inr (Or.inr (Or.inl rfl))
    split
    · exact Or.inr (Or.inr (Or.inr (Or.inl rfl)))
    split
    · exact Or.inr (Or.inr (Or.inr (Or.inr (Or.inl rfl))))
    · exact Or.inr (Or.inr (Or.inr (Or.inr (Or.inr rfl))))
  · simp only [get_review_step_guidance]
    split
    · exact Or.inl rfl
    split
    · exact Or.inr (Or.inl rfl)
    split
    · exact Or.inr (Or.inr (Or.inl rfl))
    split
    · exact Or.inr (Or.inr (Or.inr (Or.inl rfl)))
    split
    · exact Or.inr (Or.inr (Or.inr (Or.inr (Or.inl rfl))))
    · exact Or.inr (Or.inr (Or.inr (Or.inr (Or.inr rfl))))

/-- C4: in the review phase, for every step_number s and total_steps t with
s ≥ t and s > 4, the selector returns the terminal completion case, whose
next directive announces the plan is approved for execution. -/
theorem review_terminal_approved (s t : Int) (hts : t ≤ s) (h4 : 4 < s) :
    get_review_step_guidance s t = reviewCompleteGuidance ∧
    (get_review_step_guidance s t).next =
      "PLAN APPROVED.\n\n"
      ++ "Ready for implementation via /plan-execution command.\n"
      ++ "Pass the plan file path as argument." := by
  have h : get_review_step_guidance s t = reviewCompleteGuidance := by
    have h1 : s ≠ 1 := by omega
    have h2 : s ≠ 2 := by omega
    have h3 : s ≠ 3 := by omega
    have h4' : s ≠ 4 := by omega
    simp only [get_review_step_guidance, h1, h2, h3, h4', if_false, ge_iff_le, hts,
      if_true]
  exact ⟨h, by rw [h]; rfl⟩

/-- C4 witness: review step 5 of 5 yields the terminal approved content. -/
theorem review_terminal_approved_witness :
    get_review_step_guidance 5 5 = reviewCompleteGuidance ∧
    (get_review_step_guidance 5 5).next =
      "PLAN APPROVED.\n\n"
      ++ "Ready for implementation via /plan-execution command.\n"
      ++ "Pass the plan file path as argument." :=
  review_terminal_approved 5 5 (by decide) (by decide)

/-- C5: in the planning phase, for every step_number s ≥ 5 and total_steps t
with s < t, the selector returns the generic steps-5+ backtrack/gap-analysis
case, and the next directive text contains the literal decimal value of
t - s, the count of steps remaining. -/
theorem planning_steps5plus_remaining (s t : Int) (h5 : 5 ≤ s) (hst : s < t) :
    get_planning_step_guidance s t = planningSteps5PlusGuidance (s + 1) (t - s) ∧
    ∃ pre post,
      (get_planning_step_guidance s t).next = pre ++ (toString (t - s) ++ post) := by
  have h : get_planning_step_guidance s t = planningSteps5PlusGuidance (s + 1) (t - s) := by
    have h0 : ¬ (s ≥ t) := by omega
    have h1 : s ≠ 1 := by omega
    have h2 : s ≠ 2 := by omega
    have h3 : s ≠ 3 := by omega
    have h4 : s ≠ 4 := by omega
    simp only [get_planning_step_guidance, h0, h1, h2, h3, h4, if_false]
  refine ⟨h, "Invoke step " ++ toString (s + 1) ++ ". ",
    " step(s) remaining until completion. (Or invoke earlier step if backtracking.)", ?_⟩
  rw [h]
  simp only [planningSteps5PlusGuidance, String.append_assoc]

/-- C5 witness: at step 5 of 7, the steps-5+ case is returned and its next
text contains the decimal rendering of the 2 remaining steps. -/
theorem planning_steps5plus_remaining_witness :
    get_planning_step_guidance 5 7 = planningSteps5PlusGuidance 6 2 ∧
    ∃ pre post,
      (get_planning_step_guidance 5 7).next = pre ++ (toString (7 - 5 : Int) ++ post) :=
  planning_steps5plus_remaining 5 7 (by decide) (by decide)

/-- C6: for every phase and every pair (step_number, total_steps), the next
field of the returned GuidanceResult is a non-empty string, including at the
terminal states of both phases. -/
theorem guidance_next_nonempty (phase : Phase) (s t : Int) :
    (phaseGuidance phase s t).next ≠ "" := by
  cases phase <;>
    simp only [phaseGuidance, get_planning_step_guidance, get_review_step_guidance] <;>
    repeat' split
  all_goals
    simp only [planningCompleteGuidance, planningStep1Guidance, planningStep2Guidance,
      planningStep3Guidance, planningStep4Guidance, planningSteps5PlusGuidance,
      reviewStep1Guidance, reviewStep2Guidance, reviewStep3Guidance, reviewStep4Guidance,
      reviewCompleteGuidance, reviewFallbackGuidance]
  all_goals
    apply ne_empty_of_length
  all_goals
    repeat apply length_append_ne
  all_goals decide

/-- C7: if step_number < 1 or total_steps < 1, the program writes an error
message to standard error and terminates with a non-zero exit status,
producing no report on standard output; for all other integer inputs it
terminates with status zero after printing the (non-empty) report. -/
theorem main_validation_exit (phase : Phase) (s t : Int) (th : String) :
    (s < 1 ∨ t < 1 →
      (mainFn phase s t th).exitCode ≠ 0 ∧
      (mainFn phase s t th).stdout = "" ∧
      (mainFn phase s t th).stderr = "Error: step-number and total-steps must be >= 1\n") ∧
    (1 ≤ s → 1 ≤ t →
      (mainFn phase s t th).exitCode = 0 ∧
      (mainFn phase s t th).stdout = report phase s t th ∧
      (mainFn phase s t th).stdout ≠ "" ∧
      (mainFn phase s t th).stderr = "") := by
  constructor
  · intro h
    have e : mainFn phase s t th =
        { exitCode := 1, stdout := "",
          stderr := "Error: step-number and total-steps must be >= 1\n" } := by
      simp only [mainFn, if_pos h]
    rw [e]
    exact ⟨by decide, rfl, rfl⟩
  · intro hs ht
    have h : ¬ (s < 1 ∨ t < 1) := by omega
    have e : mainFn phase s t th =
        { exitCode := 0, stdout := report phase s t th, stderr := "" } := by
      simp only [mainFn, if_neg h]
    rw [e]
    refine ⟨rfl, rfl, ?_, rfl⟩
    simp only [report, reportBanner]
    apply ne_empty_of_length
    repeat apply length_append_ne_right
    decide

/-- C8: the rendered report's status marker is phase_complete exactly when
step_number ≥ total_steps and in_progress otherwise, for every phase and
guidance case; in particular (phase=review, step_number=4, total_steps=4)
prints status phase_complete while its guidance is the quality-reviewer
delegation case. -/
theorem report_status_marker (phase : Phase) (s t : Int) (th : String)
    (hs : 1 ≤ s) (ht : 1 ≤ t) :
    (∃ st pre post,
      (mainFn phase s t th).stdout = pre ++ (("STATUS: " ++ st) ++ post) ∧
      (st = "phase_complete" ↔ t ≤ s) ∧ (st = "in_progress" ↔ s < t)) ∧
    (get_review_step_guidance 4 4 = reviewStep4Guidance ∧
     ∃ pre post,
       (mainFn .review 4 4 th).stdout =
         pre ++ (("STATUS: " ++ "phase_complete") ++ post)) := by
  have h : ¬ (s < 1 ∨ t < 1) := by omega
  have h44 : get_review_step_guidance 4 4 = reviewStep4Guidance := by
    norm_num [get_review_step_guidance]
  refine ⟨⟨(if s ≥ t then "phase_complete" else "in_progress"),
      reportBanner phase s t,
      reportMid ++ (th ++ reportTail (s ≥ t) (phaseGuidance phase s t)), ?_, ?_, ?_⟩,
    h44, ?_⟩
  · simp only [mainFn, if_neg h, report]
  · rcases le_or_lt t s with hc | hc
    · rw [if_pos (by omega : s ≥ t)]
      simp [hc]
    · rw [if_neg (by omega : ¬ s ≥ t)]
      constructor
      · intro he
        exact absurd he (by decide)
      · intro hle
        exact absurd hle (by omega)
  · rcases le_or_lt t s with hc | hc
    · rw [if_pos (by omega : s ≥ t)]
      constructor
      · intro he
        exact absurd he (by decide)
      · intro hlt
        exact absurd hlt (by omega)
    · rw [if_neg (by omega : ¬ s ≥ t)]
      simp [hc]
  · refine ⟨reportBanner .review 4 4,
      reportMid ++ (th ++ reportTail ((4 : Int) ≥ 4) (phaseGuidance .review 4 4)), ?_⟩
    have h4 : ¬ ((4 : Int) < 1 ∨ (4 : Int) < 1) := by omega
    simp only [mainFn, if_neg h4, report, if_pos (by omega : (4 : Int) ≥ 4)]

/-- C8 witness: at phase planning, step 1 of 4, the status marker decomposes
as stated, and the concrete review 4-of-4 scenario holds. -/
theorem report_status_marker_witness :
    (∃ st pre post,
      (mainFn .planning 1 4 "notes").stdout = pre ++ (("STATUS: " ++ st) ++ post) ∧
      (st = "phase_complete" ↔ (4 : Int) ≤ 1) ∧ (st = "in_progress" ↔ (1 : Int) < 4)) ∧
    (get_review_step_guidance 4 4 = reviewStep4Guidance ∧
     ∃ pre post,
       (mainFn .review 4 4 "notes").stdout =
         pre ++ (("STATUS: " ++ "phase_complete") ++ post)) :=
  report_status_marker .planning 1 4 "notes" (by decide) (by decide)

/-- C9: for every free-text notes string supplied via the thoughts input,
that string appears byte-for-byte, uninterpreted, in the rendered report on
standard output. -/
theorem thoughts_roundtrip (phase : Phase) (s t : Int) (th : String)
    (hs : 1 ≤ s) (ht : 1 ≤ t) :
    ∃ pre post, (mainFn phase s t th).stdout = pre ++ (th ++ post) := by
  have h : ¬ (s < 1 ∨ t < 1) := by omega
  refine ⟨reportBanner phase s t
      ++ (("STATUS: " ++ (if s ≥ t then "phase_complete" else "in_progress")) ++ reportMid),
    reportTail (s ≥ t) (phaseGuidance phase s t), ?_⟩
  simp only [mainFn, if_neg h, report, String.append_assoc]

/-- C9 witness: a thoughts string with embedded whitespace and special
characters appears verbatim in the report at step 2 of 4 of the planning
phase. -/
theorem thoughts_roundtrip_witness :
    ∃ pre post,
      (mainFn .planning 2 4 "a b\tc\n<&>'\"%s end").stdout =
        pre ++ ("a b\tc\n<&>'\"%s end" ++ post) :=
  thoughts_roundtrip .planning 2 4 "a b\tc\n<&>'\"%s end" (by decide) (by decide)

/-- C10: for every phase and every pair (step_number, total_steps), the
actions list of the returned GuidanceResult is non-empty: no case of either
selector produces an empty checklist. -/
theorem guidance_actions_nonempty (phase : Phase) (s t : Int) :
    (phaseGuidance phase s t).actions ≠ [] := by
  cases phase <;>
    simp only [phaseGuidance, get_planning_step_guidance, get_review_step_guidance] <;>
    repeat' split
  all_goals
    simp [planningCompleteGuidance, planningStep1Guidance, planningStep2Guidance,
      planningStep3Guidance, planningStep4Guidance, planningSteps5PlusGuidance,
      reviewStep1Guidance, reviewStep2Guidance, reviewStep3Guidance, reviewStep4Guidance,
      reviewCompleteGuidance, reviewFallbackGuidance]
